import Mathlib

/-!
Shallow embedding of the concurrent ping / result-aggregation pipeline of
`src/script.py` (a tool that pings hosts listed in text files and writes the
statistics to a spreadsheet).  Python strings are embedded as `List Char`
(wrapped in `String` at the component boundaries), Python `int` as `Int`,
Python `float` as `ℚ` (the tool only ever manipulates finite decimal
literals; IEEE specials never arise from the claims under study), and a
Python exception escaping a function as `Except String`.
-/

namespace PingXlsx

/-- Configuration constants of `script.py` (lines 12-14). -/
def PING_COUNT : Int := 40

/-- Per-packet timeout in milliseconds (`TIMEOUT_MS = 400`, line 13). -/
def TIMEOUT_MS : Int := 400

/-- Maximum concurrent probes (`MAX_THREADS = 8`, line 14). -/
def MAX_THREADS : Nat := 8

/-! ### Python string primitives

The parser in `analyze_ping` uses `str.lower`, `str.split(sep)`,
`str.split()` (whitespace), `str.replace`, the `in` operator, list
indexing (raising `IndexError`), `int(...)` and `float(...)`.  Each is
embedded below over `List Char`.  `Char.toLower` / `Char.isWhitespace`
cover the ASCII behaviour of their Python counterparts, which is all the
probe output exercises. -/

/-- Python `str.lower()` on the character list. -/
def pyLower (s : List Char) : List Char := s.map Char.toLower

/-- First occurrence of (non-empty) `sep` inside `xs`: returns the part
before the occurrence and the part after it, or `none` when `sep` does not
occur in `xs`. -/
def firstSplit (sep : List Char) : List Char → Option (List Char × List Char)
  | [] => none
  | c :: rest =>
    if sep.isPrefixOf (c :: rest) then some ([], (c :: rest).drop sep.length)
    else (firstSplit sep rest).map (fun pq => (c :: pq.1, pq.2))

/-- Python's `sep in s` membership test (for non-empty `sep`). -/
def pyContains (sep xs : List Char) : Bool := (firstSplit sep xs).isSome

/-- Fueled worker for `pySplit`; with fuel `≥ xs.length` the fuel never
runs out because every split step consumes at least one character of a
non-empty separator. -/
def splitF (sep : List Char) : Nat → List Char → List (List Char)
  | 0, xs => [xs]
  | Nat.succ fuel, xs =>
    match firstSplit sep xs with
    | none => [xs]
    | some pq => pq.1 :: splitF sep fuel pq.2

/-- Python `s.split(sep)` for a non-empty separator: the pieces of `xs`
between the non-overlapping left-to-right occurrences of `sep`. -/
def pySplit (sep xs : List Char) : List (List Char) := splitF sep (xs.length + 1) xs

/-- Python `s.split(c)` for a one-character separator, written as a
structural recursion (same semantics as `pySplit [c]`); used for the
`output.split('\n')` line splitting of `analyze_ping`. -/
def splitCh (c : Char) : List Char → List (List Char)
  | [] => [[]]
  | x :: xs =>
    if x = c then [] :: splitCh c xs
    else
      match splitCh c xs with
      | [] => [[x]]
      | t :: ts => (x :: t) :: ts

/-- Python list indexing `l[i]` for a non-negative index: raises
`IndexError` (message `str(IndexError(...))` as produced by CPython) when
out of range. -/
def pyGetElem {α : Type} (l : List α) (i : Nat) : Except String α :=
  if h : i < l.length then .ok (l.get ⟨i, h⟩) else .error "list index out of range"

/-- Python `str.strip()` (whitespace from both ends), as performed by
`int(...)` and `float(...)` before parsing. -/
def pyStrip (xs : List Char) : List Char :=
  ((xs.dropWhile Char.isWhitespace).reverse.dropWhile Char.isWhitespace).reverse

/-- Numeric value of a digit list (most significant first). -/
def digitsVal (ds : List Char) : Nat :=
  ds.foldl (fun a c => 10 * a + (c.toNat - '0'.toNat)) 0

/-- Optional leading sign of a numeric literal: the sign factor and the
remaining characters. -/
def pySign (t : List Char) : Int × List Char :=
  match t with
  | '-' :: r => (-1, r)
  | '+' :: r => (1, r)
  | r => (1, r)

/-- Python `int(s)`: strips surrounding whitespace, accepts an optional
sign followed by a non-empty run of digits, and otherwise raises
`ValueError` with CPython's message (which quotes the original string;
CPython's digit-group underscores and non-ASCII digits are never present
in ping output and are not modelled). -/
def pyInt (xs : List Char) : Except String Int :=
  if !(pySign (pyStrip xs)).2.isEmpty && (pySign (pyStrip xs)).2.all Char.isDigit then
    .ok ((pySign (pyStrip xs)).1 * (digitsVal (pySign (pyStrip xs)).2 : Int))
  else .error ("invalid literal for int() with base 10: '" ++ String.mk xs ++ "'")

/-- Decimal-literal recogniser backing `pyFloat`: an optional sign, an
integer and/or fractional digit run around an optional point, and an
optional `e`-exponent, returned as a mantissa/power-of-ten pair `(n, e)`
denoting `n * 10^e`.  (The digits before and after the point concatenated
give `n` up to sign; the point's position and the written exponent give
`e`.)  `none` where the literal is malformed. -/
def floatParts (t : List Char) : Option (Int × Int) :=
  let s : Int × List Char :=
    match t with
    | '-' :: r => (-1, r)
    | '+' :: r => (1, r)
    | r => (1, r)
  let ip := s.2.takeWhile Char.isDigit
  let r2 := s.2.dropWhile Char.isDigit
  let fp : List Char × List Char :=
    match r2 with
    | '.' :: r => (r.takeWhile Char.isDigit, r.dropWhile Char.isDigit)
    | r => ([], r)
  let mantOk := !ip.isEmpty || !fp.1.isEmpty
  let n : Int := s.1 * (digitsVal (ip ++ fp.1) : Int)
  let e0 : Int := -(fp.1.length : Int)
  match fp.2 with
  | [] => if mantOk then some (n, e0) else none
  | 'e' :: r4 =>
    let es : Int × List Char :=
      match r4 with
      | '-' :: r => (-1, r)
      | '+' :: r => (1, r)
      | r => (1, r)
    if mantOk && !es.2.isEmpty && es.2.all Char.isDigit then
      some (n, e0 + es.1 * (digitsVal es.2 : Int))
    else none
  | _ => none

/-- Python `float(s)` restricted to finite decimal/scientific literals.
(`inf`/`nan` literals never occur in the lower-cased ping lines the tool
feeds to `float` and fall outside the rational embedding.)  Returns
`none` where `float(...)` raises `ValueError` — inside `analyze_ping`
that exception is always caught. -/
def pyFloat (xs : List Char) : Option ℚ :=
  (floatParts (pyStrip xs)).map (fun p => (p.1 : ℚ) * (10 : ℚ) ^ p.2)

/-- First whitespace-separated token: Python `s.split()[0]`, with `none`
for the `IndexError` of indexing an empty token list. -/
def pyFirstTokenWs (xs : List Char) : Option (List Char) :=
  let t := xs.dropWhile Char.isWhitespace
  if t.isEmpty then none else some (t.takeWhile (fun c => !c.isWhitespace))

/-- Python `s.replace(sep, '')` (delete every non-overlapping occurrence
of `sep`, left to right) — equal to joining the pieces of `s.split(sep)`. -/
def pyReplaceDel (sep xs : List Char) : List Char := (pySplit sep xs).flatten

/-! ### Output Parser (`analyze_ping`, script.py lines 39-65) -/

/-- The `stats` dictionary built by `analyze_ping` (line 41-47).  The
`error` entry is initialised to `None` and never written elsewhere;
`raw_output` holds the lower-cased output. -/
structure PingStats where
  times : List ℚ
  received : Int
  lost : Int
  error : Option String
  raw_output : List Char
deriving DecidableEq, Repr

/-- Received-packet count extraction of `analyze_ping` (lines 49-53), on
the already lower-cased output:

* `if 'received =' in output: received = int(output.split('received = ')[1].split(',')[0])`
* `elif 'packets transmitted' in output: received = int(output.split('packets transmitted, ')[1].split(' received,')[0])`
* otherwise the dictionary default `0` stands.

The `IndexError` of `[1]` and the `ValueError` of `int(...)` escape
`analyze_ping` (there is no `try` around this part); they are surfaced as
`Except.error`. -/
def computeReceived (o : List Char) : Except String Int :=
  if pyContains "received =".toList o then
    (pyGetElem (pySplit "received = ".toList o) 1).bind fun seg =>
      (pyGetElem (pySplit [','] seg) 0).bind fun numTok => pyInt numTok
  else if pyContains "packets transmitted".toList o then
    (pyGetElem (pySplit "packets transmitted, ".toList o) 1).bind fun seg =>
      (pyGetElem (pySplit " received,".toList seg) 0).bind fun tok => pyInt tok
  else .ok 0

/-- One line of the RTT loop of `analyze_ping` (lines 57-63): for a line
containing `'time='`, the attempted sample is
`float(line.split('time=')[1].split()[0].replace('ms',''))`; a
`ValueError`/`IndexError` anywhere in the attempt is caught (the line is
only logged) — hence the `Option`. -/
def timeSample (line : List Char) : Option ℚ := do
  let seg ← (pyGetElem (pySplit "time=".toList line) 1).toOption
  let tok ← pyFirstTokenWs seg
  pyFloat (pyReplaceDel "ms".toList tok)

/-- Samples contributed by one output line: none unless the line contains
`'time='`, then zero or one parsed value. -/
def lineTimes (line : List Char) : List ℚ :=
  if pyContains "time=".toList line then (timeSample line).toList else []

/-- The full `stats['times']` list: every line of `output.split('\n')`
contributes its (possibly empty) sample, in order. -/
def extractTimes (output : List Char) : List ℚ :=
  ((splitCh '\n' output).map lineTimes).flatten

/-- The claim C6 reading of the token clean-up: strip one *trailing*
`"ms"` suffix instead of deleting every occurrence.  Kept only to compare
the spec's wording with the code's `replace('ms','')`. -/
def specStripMs (tok : List Char) : List Char :=
  if "ms".toList.isSuffixOf tok then tok.take (tok.length - 2) else tok

/-- Per-line sample extraction as worded by the spec (trailing-suffix
strip); identical to `timeSample` otherwise. -/
def timeSampleSpec (line : List Char) : Option ℚ := do
  let seg ← (pyGetElem (pySplit "time=".toList line) 1).toOption
  let tok ← pyFirstTokenWs seg
  pyFloat (specStripMs tok)

/-- Spec-worded variant of `extractTimes` (differs only in `specStripMs`). -/
def extractTimesSpec (output : List Char) : List ℚ :=
  ((splitCh '\n' output).map
    (fun line => if pyContains "time=".toList line then (timeSampleSpec line).toList else [])).flatten

/-- `analyze_ping(output, host)` (lines 39-65): lower-cases the output,
computes the received/lost counts (possibly raising — the `times` loop is
only reached when the count parse succeeded), and collects the RTT
samples.  `host` is accepted but unused, as in the source. -/
def analyze_ping (output : String) (_host : String) : Except String PingStats :=
  match computeReceived (pyLower output.toList) with
  | .error e => .error e
  | .ok r =>
    .ok { times := extractTimes (pyLower output.toList), received := r,
          lost := PING_COUNT - r, error := none, raw_output := pyLower output.toList }

/-! ### Host Prober (`ping_host` / `error_result`, lines 67-103) -/

/-- The per-host result dictionary.  `packet_loss` and `average_ping` are
Python floats, embedded as `ℚ`; `response_time` is the formatted string
(`'N/A'` on the error path, an elapsed-seconds string otherwise). -/
structure HostResult where
  server : String
  sent : Int
  received : Int
  lost : Int
  packet_loss : ℚ
  average_ping : ℚ
  status : String
  response_time : String
deriving DecidableEq, Repr

/-- `error_result(host, error)` (lines 93-103). -/
def error_result (host : String) (error : String) : HostResult :=
  { server := host, sent := PING_COUNT, received := 0, lost := PING_COUNT,
    packet_loss := 100, average_ping := 0,
    status := "Error: " ++ error, response_time := "N/A" }

/-- Outcome of the `execute_ping(host)` call as observed inside
`ping_host`'s `try`: the subprocess completed (returncode plus captured
stdout), or `subprocess.TimeoutExpired` was raised, or some other
exception with message `str(e)` was raised.  Note `execute_ping`
(line 37) passes *no* `timeout=` argument to `subprocess.run`, so the
`timedOut` outcome cannot actually arise — claim C10. -/
inductive ProbeOutcome where
  | completed (returncode : Int) (stdout : String)
  | timedOut
  | raised (msg : String)
deriving DecidableEq, Repr

/-- `ping_host(host)` (lines 67-91), as a function of the probe outcome.
`elapsed` stands for the wall-clock string `f"{time.time()-start_time:.2f}s"`
of line 84 — real time is outside the embedding, the field is opaque data
here. -/
def ping_host (host : String) (elapsed : String) (o : ProbeOutcome) : HostResult :=
  match o with
  | .completed rc out =>
    if rc ≠ 0 then error_result host ("Ping failed (code " ++ toString rc ++ ")")
    else
      match analyze_ping out host with
      | .error e => error_result host e
      | .ok stats =>
        { server := host, sent := PING_COUNT, received := stats.received,
          lost := stats.lost,
          packet_loss := (stats.lost : ℚ) / (PING_COUNT : ℚ) * 100,
          average_ping := if stats.times.isEmpty then 0
                          else stats.times.sum / (stats.times.length : ℚ),
          status := if stats.received = 0 then "Failed" else "Success",
          response_time := elapsed }
  | .timedOut => error_result host "Timeout"
  | .raised msg => error_result host msg

/-- Whether the probe ran without any execution fault, timeout, or other
exception: the subprocess completed with exit code `0` and `analyze_ping`
raised nothing. -/
def probe_ok (host : String) (o : ProbeOutcome) : Bool :=
  match o with
  | .completed rc out =>
    rc == 0 && (match analyze_ping out host with | .ok _ => true | .error _ => false)
  | _ => false

/-! ### Batch Coordinator sort (`process_server_file`, lines 181-184)

`results.sort(key=lambda x: (x['status'] != "Success",
x['average_ping'] if x['average_ping'] else float('inf')))` — a stable
ascending sort by the lexicographic pair (status is not `"Success"`,
average ping with falsy/zero mapped to `+inf`).  Python's stable `sort` is
embedded as the stable `List.insertionSort`: a stable sort under a total
transitive comparison is unique, so the embedding is exact. -/

/-- First sort-key component: `x['status'] != "Success"` (`False < True`). -/
def sortKeyB (x : HostResult) : Bool := x.status != "Success"

/-- Second sort-key component: `x['average_ping'] if x['average_ping'] else float('inf')`
— a Python float `0`/`0.0` is falsy, so hosts with no (or all-zero) valid
samples compare as `+inf`, i.e. `⊤`. -/
def sortKeyQ (x : HostResult) : WithTop ℚ :=
  if x.average_ping = 0 then ⊤ else (x.average_ping : WithTop ℚ)

/-- Lexicographic comparison of the sort keys, as Python compares the
tuples. -/
def resRel (a b : HostResult) : Prop :=
  sortKeyB a < sortKeyB b ∨ (sortKeyB a = sortKeyB b ∧ sortKeyQ a ≤ sortKeyQ b)

instance : DecidableRel resRel := fun a b => by
  unfold resRel; infer_instance

/-- The `results.sort(...)` call of line 181. -/
def sortResults (l : List HostResult) : List HostResult := List.insertionSort resRel l

/-! ### Helper lemmas -/

deriving instance DecidableEq for Except

/-- Strings with different data are different. -/
theorem ne_of_data_ne {s t : String} (h : s.data ≠ t.data) : s ≠ t :=
  fun he => h (congrArg String.data he)

/-- Appending on the left is cancellative for strings. -/
theorem str_append_left_cancel {s a b : String} (h : s ++ a = s ++ b) : a = b := by
  have h2 := congrArg String.data h
  rw [String.data_append, String.data_append] at h2
  exact String.ext (List.append_cancel_left h2)

/-- An error status never reads `"Success"`. -/
theorem err_ne_success (e : String) : ("Error: " ++ e) ≠ "Success" := by
  apply ne_of_data_ne
  rw [String.data_append]
  intro h
  have h1 : ("Error: ".data ++ e.data).head? = some 'E' := by
    rw [show "Error: ".data = 'E' :: "rror: ".data from rfl]; rfl
  rw [h] at h1
  exact absurd h1 (by decide)

/-- An error status never reads `"Failed"`. -/
theorem err_ne_failed (e : String) : ("Error: " ++ e) ≠ "Failed" := by
  apply ne_of_data_ne
  rw [String.data_append]
  intro h
  have h1 : ("Error: ".data ++ e.data).head? = some 'E' := by
    rw [show "Error: ".data = 'E' :: "rror: ".data from rfl]; rfl
  rw [h] at h1
  exact absurd h1 (by decide)

/-- Unfolding of a successful `analyze_ping`: the stats record satisfies
the relations the source establishes (line 55: `lost = PING_COUNT - received`,
and the `times` loop of lines 57-63). -/
theorem analyze_ping_ok {out host : String} {s : PingStats}
    (h : analyze_ping out host = .ok s) :
    s.lost = PING_COUNT - s.received ∧ s.times = extractTimes (pyLower out.toList) := by
  unfold analyze_ping at h
  cases hc : computeReceived (pyLower out.toList) with
  | error e => rw [hc] at h; cases h
  | ok r =>
    rw [hc] at h
    cases h
    exact ⟨rfl, rfl⟩

/-- A failing `analyze_ping` is a failing `computeReceived`. -/
theorem analyze_ping_error {out host e : String}
    (h : analyze_ping out host = .error e) :
    computeReceived (pyLower out.toList) = .error e := by
  unfold analyze_ping at h
  cases hc : computeReceived (pyLower out.toList) with
  | error e2 => rw [hc] at h; cases h; rfl
  | ok r => rw [hc] at h; cases h

/-! ### Claims -/

/-- C2: every `HostResult` produced by `ping_host` (any probe outcome, so
both the parsed path of lines 76-85 and the `error_result` paths) and by
`error_result` itself satisfies `received + lost == sent`, and `sent` is
always the fixed packet count `PING_COUNT = 40`. -/
theorem received_plus_lost_eq_sent :
    (∀ (host elapsed : String) (o : ProbeOutcome),
      (ping_host host elapsed o).received + (ping_host host elapsed o).lost
          = (ping_host host elapsed o).sent ∧
      (ping_host host elapsed o).sent = PING_COUNT) ∧
    (∀ host e : String,
      (error_result host e).received + (error_result host e).lost
          = (error_result host e).sent ∧
      (error_result host e).sent = PING_COUNT) := by
  constructor
  · intro host elapsed o
    cases o with
    | completed rc out =>
      by_cases hrc : rc ≠ 0
      · simp [ping_host, hrc, error_result]
      · cases hA : analyze_ping out host with
        | error e => simp [ping_host, hrc, hA, error_result]
        | ok stats =>
          simp [ping_host, hrc, hA]
          rw [(analyze_ping_ok hA).1]
          ring
    | timedOut => simp [ping_host, error_result]
    | raised msg => simp [ping_host, error_result]
  · intro host e
    simp [error_result]

/-- C5: every `HostResult` has `packet_loss == (lost / sent) * 100` (the
embedding computes with exact rationals, so the floating-point tolerance
of the claim is met with equality); the error path's hard-coded `100.0`
satisfies it because there `lost == sent`. -/
theorem packet_loss_eq_lost_over_sent :
    (∀ (host elapsed : String) (o : ProbeOutcome),
      (ping_host host elapsed o).packet_loss =
        ((ping_host host elapsed o).lost : ℚ) / ((ping_host host elapsed o).sent : ℚ) * 100) ∧
    (∀ host e : String,
      (error_result host e).packet_loss = 100 ∧
      (error_result host e).lost = (error_result host e).sent) := by
  constructor
  · intro host elapsed o
    cases o with
    | completed rc out =>
      by_cases hrc : rc ≠ 0
      · simp [ping_host, hrc, error_result, PING_COUNT]
      · cases hA : analyze_ping out host with
        | error e => simp [ping_host, hrc, hA, error_result, PING_COUNT]
        | ok stats => simp [ping_host, hrc, hA]
    | timedOut => simp [ping_host, error_result, PING_COUNT]
    | raised msg => simp [ping_host, error_result, PING_COUNT]
  · intro host e
    exact ⟨rfl, rfl⟩

/-- C7: a probe whose subprocess exits with a non-zero code `rc` yields
exactly `error_result host "Ping failed (code rc)"` — status
`"Error: Ping failed (code rc)"`, `received = 0`, all `PING_COUNT` packets
lost, `average_ping = 0`, `response_time = "N/A"` — and the captured
output is never parsed (the result does not depend on it). -/
theorem nonzero_exit_code_error (host elapsed : String) (rc : Int) (out : String)
    (h : rc ≠ 0) :
    ping_host host elapsed (.completed rc out) =
      error_result host ("Ping failed (code " ++ toString rc ++ ")") ∧
    (ping_host host elapsed (.completed rc out)).status =
      "Error: " ++ ("Ping failed (code " ++ toString rc ++ ")") ∧
    (ping_host host elapsed (.completed rc out)).received = 0 ∧
    (ping_host host elapsed (.completed rc out)).lost = PING_COUNT ∧
    (ping_host host elapsed (.completed rc out)).average_ping = 0 ∧
    (ping_host host elapsed (.completed rc out)).response_time = "N/A" ∧
    ∀ out2 : String,
      ping_host host elapsed (.completed rc out2) = ping_host host elapsed (.completed rc out) := by
  refine ⟨by simp [ping_host, h], ?_, ?_, ?_, ?_, ?_, ?_⟩ <;>
    simp [ping_host, h, error_result]

/-- Witness for C7 at the concrete exit code `1`. -/
theorem nonzero_exit_code_error_witness :
    (ping_host "h" "0.10s" (.completed 1 "some output")).status =
      "Error: " ++ ("Ping failed (code " ++ toString (1 : Int) ++ ")") :=
  (nonzero_exit_code_error "h" "0.10s" 1 "some output" (by decide)).2.1

/-- C1 counterexample: on the garbage probe output `"received = -5,"`
(exit code 0), line 50 parses `received = -5` and line 83
(`'Failed' if received == 0 else 'Success'`) reports `"Success"` even
though the received count is not greater than 0 — so status `"Success"`
is *not* equivalent to `received > 0` with no fault. -/
theorem success_iff_positive_counterexample :
    (ping_host "h" "0.10s" (.completed 0 "received = -5,")).status = "Success" ∧
    (ping_host "h" "0.10s" (.completed 0 "received = -5,")).received = -5 ∧
    ¬ (0 < (ping_host "h" "0.10s" (.completed 0 "received = -5,")).received) := by
  refine ⟨?_, ?_, ?_⟩ <;> decide

/-- C1 (amended): the status is `"Success"` iff no execution fault,
timeout, or other exception occurred and the received count is *non-zero*
(the code tests `received == 0`, not `received > 0`); it is `"Failed"` iff
no fault occurred and the received count is zero; and on any fault the
status is an `"Error: <reason>"` string. -/
theorem status_classification (host elapsed : String) (o : ProbeOutcome) :
    ((ping_host host elapsed o).status = "Success" ↔
      probe_ok host o = true ∧ (ping_host host elapsed o).received ≠ 0) ∧
    ((ping_host host elapsed o).status = "Failed" ↔
      probe_ok host o = true ∧ (ping_host host elapsed o).received = 0) ∧
    (probe_ok host o = false →
      ∃ reason, (ping_host host elapsed o).status = "Error: " ++ reason) := by
  cases o with
  | completed rc out =>
    by_cases hrc : rc ≠ 0
    · refine ⟨?_, ?_,
        fun _ => ⟨"Ping failed (code " ++ toString rc ++ ")",
          by simp [ping_host, hrc, error_result]⟩⟩
      · simp [ping_host, hrc, error_result, probe_ok, err_ne_success]
      · simp [ping_host, hrc, error_result, probe_ok, err_ne_failed]
    · have h0 : rc = 0 := not_not.mp hrc
      subst h0
      cases hA : analyze_ping out host with
      | error e =>
        have hpo : probe_ok host (.completed 0 out) = false := by
          simp [probe_ok, hA]
        refine ⟨?_, ?_, fun _ => ⟨e, by simp [ping_host, hA, error_result]⟩⟩
        · simp [ping_host, hA, error_result, hpo, err_ne_success]
        · simp [ping_host, hA, error_result, hpo, err_ne_failed]
      | ok stats =>
        have hpo : probe_ok host (.completed 0 out) = true := by
          simp [probe_ok, hA]
        by_cases hr : stats.received = 0
        · refine ⟨?_, ?_, ?_⟩
          · simp [ping_host, hA, hr, hpo]
          · simp [ping_host, hA, hr, hpo]
          · intro hcontra; rw [hpo] at hcontra; cases hcontra
        · refine ⟨?_, ?_, ?_⟩
          · simp [ping_host, hA, hr, hpo]
          · simp [ping_host, hA, hr, hpo]
          · intro hcontra; rw [hpo] at hcontra; cases hcontra
  | timedOut =>
    exact ⟨by simp [ping_host, error_result, probe_ok, err_ne_success],
      by simp [ping_host, error_result, probe_ok, err_ne_failed],
      fun _ => ⟨"Timeout", by simp [ping_host, error_result]⟩⟩
  | raised msg =>
    exact ⟨by simp [ping_host, error_result, probe_ok, err_ne_success],
      by simp [ping_host, error_result, probe_ok, err_ne_failed],
      fun _ => ⟨msg, by simp [ping_host, error_result]⟩⟩

/-- Witness for C1 (amended) at the timeout outcome, discharging the
fault hypothesis concretely. -/
theorem status_classification_witness :
    ∃ reason, (ping_host "h" "0.10s" ProbeOutcome.timedOut).status = "Error: " ++ reason :=
  (status_classification "h" "0.10s" .timedOut).2.2 (by decide)

/-- When neither of the guards the code actually tests (`'received ='`
and `'packets transmitted'`, lines 49 and 51) occurs in the lower-cased
output, the dictionary default `received = 0` stands and `analyze_ping`
cannot raise. -/
theorem analyze_ping_no_marker {out host : String}
    (h1 : pyContains "received =".toList (pyLower out.toList) = false)
    (h2 : pyContains "packets transmitted".toList (pyLower out.toList) = false) :
    analyze_ping out host =
      .ok { times := extractTimes (pyLower out.toList), received := 0,
            lost := PING_COUNT, error := none, raw_output := pyLower out.toList } := by
  unfold analyze_ping computeReceived
  rw [h1, h2]
  simp

/-- C3 counterexample: the input `"received ="` contains neither of the
claim's markers `"received = "` (note the trailing space) and
`"packets transmitted, "`, yet `analyze_ping` does not default the
received count to 0 — line 50 enters the Windows branch on the code's
actual guard `'received ='` and its `[1]` indexing raises `IndexError`,
which escapes `analyze_ping`. -/
theorem marker_default_counterexample :
    pyContains "received = ".toList "received =".toList = false ∧
    pyContains "packets transmitted, ".toList "received =".toList = false ∧
    analyze_ping "received =" "h" = .error "list index out of range" := by
  refine ⟨?_, ?_, ?_⟩ <;> decide

/-- C3 (amended): the code guards on the substrings `'received ='` and
(failing that) `'packets transmitted'` — without the trailing space and
comma of the claim's markers.  When neither guard matches, received is 0
and lost is the full packet count; when a guard matches but the text after
it is malformed, the `IndexError`/`ValueError` escapes `analyze_ping`
instead of defaulting to 0 (so every `analyze_ping` fault implies one of
the guards matched).  The two dialect examples behave as claimed:
`"received = 38,"` yields received=38, lost=2 and
`"40 packets transmitted, 37 received,"` yields received=37, lost=3. -/
theorem received_count_parsing :
    (∀ out host : String,
      pyContains "received =".toList (pyLower out.toList) = false →
      pyContains "packets transmitted".toList (pyLower out.toList) = false →
      analyze_ping out host =
        .ok { times := extractTimes (pyLower out.toList), received := 0,
              lost := PING_COUNT, error := none, raw_output := pyLower out.toList }) ∧
    (∀ out host e : String, analyze_ping out host = .error e →
      pyContains "received =".toList (pyLower out.toList) = true ∨
      pyContains "packets transmitted".toList (pyLower out.toList) = true) ∧
    analyze_ping "received = 38," "h" =
      .ok { times := [], received := 38, lost := 2, error := none,
            raw_output := "received = 38,".toList } ∧
    analyze_ping "40 packets transmitted, 37 received, 7.5% packet loss" "h" =
      .ok { times := [], received := 37, lost := 3, error := none,
            raw_output := "40 packets transmitted, 37 received, 7.5% packet loss".toList } := by
  refine ⟨fun out host h1 h2 => analyze_ping_no_marker h1 h2, ?_, by decide, by decide⟩
  intro out host e h
  by_cases g1 : pyContains "received =".toList (pyLower out.toList) = true
  · exact Or.inl g1
  · by_cases g2 : pyContains "packets transmitted".toList (pyLower out.toList) = true
    · exact Or.inr g2
    · rw [analyze_ping_no_marker (Bool.not_eq_true _ ▸ g1) (Bool.not_eq_true _ ▸ g2)] at h
      cases h

/-- Witness for C3 (amended): an output with neither guard substring
defaults to received 0, lost 40. -/
theorem received_count_parsing_witness :
    analyze_ping "xyz" "h" =
      .ok { times := extractTimes (pyLower "xyz".toList), received := 0,
            lost := PING_COUNT, error := none, raw_output := pyLower "xyz".toList } :=
  received_count_parsing.1 "xyz" "h" (by decide) (by decide)

/-- C8 counterexample: `analyze_ping` performs no range validation, so
the output `"received = 100,"` (with the fixed packet count 40) parses to
a received count of 100 — outside `0..40` — and a *negative* lost count
of `-60`. -/
theorem received_range_counterexample :
    analyze_ping "received = 100," "h" =
      .ok { times := [], received := 100, lost := -60, error := none,
            raw_output := "received = 100,".toList } ∧
    ¬ ((100 : Int) ≤ PING_COUNT) ∧ ((-60 : Int) < 0) := by
  refine ⟨?_, ?_, ?_⟩ <;> decide

/-- C8 (amended): the received count is whatever integer the output
reports, with no clamping to `0..packet count`; `lost` is always
`PING_COUNT - received`, so `lost` is non-negative exactly when
`received ≤ PING_COUNT` (and `lost ≤ PING_COUNT` exactly when
`0 ≤ received`); with no count marker present the default `received = 0`
lies in range. -/
theorem received_range (out host : String) (s : PingStats)
    (h : analyze_ping out host = .ok s) :
    s.lost = PING_COUNT - s.received ∧
    (0 ≤ s.received → s.lost ≤ PING_COUNT) ∧
    (s.received ≤ PING_COUNT → 0 ≤ s.lost) ∧
    (pyContains "received =".toList (pyLower out.toList) = false →
     pyContains "packets transmitted".toList (pyLower out.toList) = false →
     s.received = 0 ∧ s.lost = PING_COUNT) := by
  have h1 := (analyze_ping_ok h).1
  refine ⟨h1, ?_, ?_, ?_⟩
  · intro hge; rw [h1]; simp [PING_COUNT] at hge ⊢; omega
  · intro hle; rw [h1]; simp [PING_COUNT] at hle ⊢; omega
  · intro g1 g2
    rw [analyze_ping_no_marker g1 g2] at h
    cases h
    exact ⟨rfl, rfl⟩

/-- Witness for C8 (amended) on the empty output, whose stats are
`received = 0`, `lost = 40`. -/
theorem received_range_witness :
    ({ times := [], received := 0, lost := 40, error := none,
       raw_output := [] } : PingStats).lost =
      PING_COUNT -
        ({ times := [], received := 0, lost := 40, error := none,
           raw_output := [] } : PingStats).received :=
  (received_range "" "h" _ (by decide)).1

/-- Splitting never yields an empty piece list. -/
theorem splitCh_ne_nil (c : Char) (xs : List Char) : splitCh c xs ≠ [] := by
  induction xs with
  | nil => simp [splitCh]
  | cons x t ih =>
    by_cases hx : x = c
    · simp [splitCh, hx]
    · cases h : splitCh c t with
      | nil => simp [splitCh, hx, h]
      | cons s ss => simp [splitCh, hx, h]

/-- Line splitting distributes over concatenation at a separator. -/
theorem splitCh_append (c : Char) (a b : List Char) :
    splitCh c (a ++ c :: b) = splitCh c a ++ splitCh c b := by
  induction a with
  | nil => simp [splitCh]
  | cons x t ih =>
    by_cases hx : x = c
    · simp [splitCh, hx, ih]
    · obtain ⟨s, ss, hs⟩ := List.exists_cons_of_ne_nil (splitCh_ne_nil c t)
      have h2 : splitCh c (t ++ c :: b) = s :: (ss ++ splitCh c b) := by
        rw [ih, hs]; rfl
      simp [splitCh, hx, h2, hs]

/-- RTT extraction processes the output line by line: appending texts
around a newline concatenates their sample lists. -/
theorem extractTimes_append (a b : List Char) :
    extractTimes (a ++ '\n' :: b) = extractTimes a ++ extractTimes b := by
  unfold extractTimes
  rw [splitCh_append]
  simp

/-- C6 counterexample: on the line `"time=1ms2"` the code's
`replace('ms','')` (line 60) deletes the *interior* occurrence of `"ms"`,
so the token `"1ms2"` becomes `"12"` and parses to the sample `12.0`;
stripping only a trailing `"ms"` suffix, as the claim words it, would
leave `"1ms2"` unparsable and yield no sample. -/
theorem time_strip_counterexample :
    extractTimes "time=1ms2".toList = [12] ∧
    extractTimesSpec "time=1ms2".toList = [] := by
  constructor
  · have hts : timeSample ['t','i','m','e','=','1','m','s','2'] = some 12 := by
      have h1 : (pyGetElem (pySplit ['t','i','m','e','='] ['t','i','m','e','=','1','m','s','2']) 1).toOption
          = some ['1','m','s','2'] := by decide
      have h2 : pyFirstTokenWs ['1','m','s','2'] = some ['1','m','s','2'] := by decide
      have h3 : pyReplaceDel ['m','s'] ['1','m','s','2'] = ['1','2'] := by decide
      have h4 : pyFloat ['1','2'] = some 12 := by
        have h : floatParts (pyStrip ['1','2']) = some (12, 0) := by decide
        simp [pyFloat, h]
      simp [timeSample, h1, h2, h3, h4]
    have h0 : splitCh '\n' ['t','i','m','e','=','1','m','s','2']
        = [['t','i','m','e','=','1','m','s','2']] := by decide
    have h6 : pyContains ['t','i','m','e','='] ['t','i','m','e','=','1','m','s','2'] = true := by decide
    simp [extractTimes, h0, lineTimes, h6, hts]
  · decide

/-- C6 (amended): `analyze_ping` scans the output line by line; a line
contributes samples only when it contains `"time="`; the token after the
first `"time="` up to the next whitespace has *every* occurrence of the
substring `"ms"` deleted (not just a trailing suffix) and is then parsed
as a float; an unparsable line is skipped without fault and without
aborting later lines.  Concretely, `"64 bytes from x: time=23.4 ms"`
yields the single sample 23.4, `"time=abc"` yields no sample and no
fault, and a malformed line followed by `"time=5.5 ms"` still yields the
later sample 5.5. -/
theorem time_sample_extraction :
    (∀ a b : List Char, extractTimes (a ++ '\n' :: b) = extractTimes a ++ extractTimes b) ∧
    (∀ line : List Char, pyContains "time=".toList line = false → lineTimes line = []) ∧
    extractTimes "64 bytes from x: time=23.4 ms".toList = [117/5] ∧
    analyze_ping "time=abc" "x" =
      .ok { times := [], received := 0, lost := PING_COUNT, error := none,
            raw_output := "time=abc".toList } ∧
    extractTimes "time=abc\ntime=5.5 ms".toList = [11/2] := by
  refine ⟨extractTimes_append, ?_, ?_, by decide, ?_⟩
  · intro line h
    rw [show ("time=".toList) = ['t','i','m','e','='] from rfl] at h
    simp [lineTimes, h]
  · have hts : timeSample ['6','4',' ','b','y','t','e','s',' ','f','r','o','m',' ','x',':',' ','t','i','m','e','=','2','3','.','4',' ','m','s'] = some (117/5 : ℚ) := by
      have h1 : (pyGetElem (pySplit ['t','i','m','e','='] ['6','4',' ','b','y','t','e','s',' ','f','r','o','m',' ','x',':',' ','t','i','m','e','=','2','3','.','4',' ','m','s']) 1).toOption
          = some ['2','3','.','4',' ','m','s'] := by decide
      have h2 : pyFirstTokenWs ['2','3','.','4',' ','m','s'] = some ['2','3','.','4'] := by decide
      have h3 : pyReplaceDel ['m','s'] ['2','3','.','4'] = ['2','3','.','4'] := by decide
      have h4 : pyFloat ['2','3','.','4'] = some (117/5 : ℚ) := by
        have h : floatParts (pyStrip ['2','3','.','4']) = some (234, -1) := by decide
        simp [pyFloat, h]
        norm_num
      simp [timeSample, h1, h2, h3, h4]
    have h0 : splitCh '\n' ['6','4',' ','b','y','t','e','s',' ','f','r','o','m',' ','x',':',' ','t','i','m','e','=','2','3','.','4',' ','m','s']
        = [['6','4',' ','b','y','t','e','s',' ','f','r','o','m',' ','x',':',' ','t','i','m','e','=','2','3','.','4',' ','m','s']] := by decide
    have h6 : pyContains ['t','i','m','e','='] ['6','4',' ','b','y','t','e','s',' ','f','r','o','m',' ','x',':',' ','t','i','m','e','=','2','3','.','4',' ','m','s'] = true := by decide
    simp [extractTimes, h0, lineTimes, h6, hts]
  · have hsplit : "time=abc\ntime=5.5 ms".toList
        = ['t','i','m','e','=','a','b','c'] ++ '\n' :: ['t','i','m','e','=','5','.','5',' ','m','s'] := by decide
    rw [hsplit, extractTimes_append]
    have h5 : extractTimes ['t','i','m','e','=','a','b','c'] = [] := by decide
    have hts : timeSample ['t','i','m','e','=','5','.','5',' ','m','s'] = some (11/2 : ℚ) := by
      have h1 : (pyGetElem (pySplit ['t','i','m','e','='] ['t','i','m','e','=','5','.','5',' ','m','s']) 1).toOption
          = some ['5','.','5',' ','m','s'] := by decide
      have h2 : pyFirstTokenWs ['5','.','5',' ','m','s'] = some ['5','.','5'] := by decide
      have h3 : pyReplaceDel ['m','s'] ['5','.','5'] = ['5','.','5'] := by decide
      have h4 : pyFloat ['5','.','5'] = some (11/2 : ℚ) := by
        have h : floatParts (pyStrip ['5','.','5']) = some (55, -1) := by decide
        simp [pyFloat, h]
        norm_num
      simp [timeSample, h1, h2, h3, h4]
    have h0 : splitCh '\n' ['t','i','m','e','=','5','.','5',' ','m','s']
        = [['t','i','m','e','=','5','.','5',' ','m','s']] := by decide
    have h6 : pyContains ['t','i','m','e','='] ['t','i','m','e','=','5','.','5',' ','m','s'] = true := by decide
    rw [h5]
    simp [extractTimes, h0, lineTimes, h6, hts]

/-- Witness for C6 (amended): a line without `"time="` contributes no
sample. -/
theorem time_sample_extraction_witness :
    lineTimes "64 bytes from x: icmp_seq=1".toList = [] :=
  time_sample_extraction.2.1 "64 bytes from x: icmp_seq=1".toList (by decide)

instance : IsTotal HostResult resRel :=
  ⟨by
    intro a b
    rcases lt_trichotomy (sortKeyB a) (sortKeyB b) with h | h | h
    · exact Or.inl (Or.inl h)
    · rcases le_total (sortKeyQ a) (sortKeyQ b) with h2 | h2
      · exact Or.inl (Or.inr ⟨h, h2⟩)
      · exact Or.inr (Or.inr ⟨h.symm, h2⟩)
    · exact Or.inr (Or.inl h)⟩

instance : IsTrans HostResult resRel :=
  ⟨by
    intro a b c hab hbc
    rcases hab with h1 | ⟨e1, l1⟩
    · rcases hbc with h2 | ⟨e2, l2⟩
      · exact Or.inl (lt_trans h1 h2)
      · exact Or.inl (lt_of_lt_of_le h1 (le_of_eq e2))
    · rcases hbc with h2 | ⟨e2, l2⟩
      · exact Or.inl (lt_of_le_of_lt (le_of_eq e1) h2)
      · exact Or.inr ⟨e1.trans e2, le_trans l1 l2⟩⟩

/-- C4: `results.sort(key=...)` produces a permutation of the collected
results that is sorted by the key (successes — `status == "Success"` —
before everything else, then ascending average ping with a zero/absent
average compared as `+inf`, hence last in its group); being stable, it
leaves an already-sorted list unchanged; and on the claim's example
`[Error avg 0, Success avg 50, Success avg 10]` it returns
`[Success avg 10, Success avg 50, Error]`. -/
theorem sort_order :
    (∀ l : List HostResult, (sortResults l).Perm l) ∧
    (∀ l : List HostResult, List.Sorted resRel (sortResults l)) ∧
    (∀ l : List HostResult, List.Sorted resRel l → sortResults l = l) ∧
    sortResults [error_result "e" "X",
      { server := "a", sent := 40, received := 40, lost := 0, packet_loss := 0,
        average_ping := 50, status := "Success", response_time := "1.00s" },
      { server := "b", sent := 40, received := 40, lost := 0, packet_loss := 0,
        average_ping := 10, status := "Success", response_time := "1.00s" }] =
    [{ server := "b", sent := 40, received := 40, lost := 0, packet_loss := 0,
        average_ping := 10, status := "Success", response_time := "1.00s" },
      { server := "a", sent := 40, received := 40, lost := 0, packet_loss := 0,
        average_ping := 50, status := "Success", response_time := "1.00s" },
      error_result "e" "X"] := by
  refine ⟨fun l => List.perm_insertionSort resRel l,
    fun l => List.sorted_insertionSort resRel l,
    fun l h => h.insertionSort_eq, ?_⟩
  decide

/-- Witness for C4's stability conjunct: sorting an already-sorted
singleton changes nothing. -/
theorem sort_order_witness :
    sortResults [error_result "e" "X"] = [error_result "e" "X"] :=
  sort_order.2.2.1 [error_result "e" "X"] (by simp)

/-- The only error `pyGetElem` raises is the `IndexError` message. -/
theorem pyGetElem_error {α : Type} {l : List α} {i : Nat} {e : String}
    (h : pyGetElem l i = .error e) : e = "list index out of range" := by
  unfold pyGetElem at h
  split at h
  · cases h
  · cases h; rfl

/-- The only error `pyInt` raises is the `ValueError` message quoting its
input. -/
theorem pyInt_error {xs : List Char} {e : String} (h : pyInt xs = .error e) :
    ∃ s : String, e = "invalid literal for int() with base 10: '" ++ s ++ "'" := by
  unfold pyInt at h
  split at h
  · cases h
  · cases h; exact ⟨String.mk xs, rfl⟩

/-- A failing `Except.bind` fails in its first or its second stage. -/
theorem except_bind_error {ε α β : Type} {x : Except ε α} {f : α → Except ε β} {e : ε}
    (h : x.bind f = .error e) : x = .error e ∨ ∃ a, x = .ok a ∧ f a = .error e := by
  cases x with
  | error e2 =>
    left
    simp [Except.bind] at h
    rw [h]
  | ok a =>
    right
    exact ⟨a, rfl, h⟩

/-- Every error message escaping the received-count parse is at least 23
characters long (the `IndexError` text has exactly 23, the `ValueError`
text at least 42). -/
theorem computeReceived_error_len {o : List Char} {e : String}
    (h : computeReceived o = .error e) : 23 ≤ e.length := by
  have hidx : ("list index out of range" : String).length = 23 := by decide
  have hinv : ("invalid literal for int() with base 10: '" : String).length = 41 := by decide
  have hq : ("'" : String).length = 1 := by decide
  unfold computeReceived at h
  split at h
  · rcases except_bind_error h with h1 | ⟨seg, h1, h⟩
    · simp [pyGetElem_error h1, hidx]
    · rcases except_bind_error h with h2 | ⟨numTok, h2, h⟩
      · simp [pyGetElem_error h2, hidx]
      · obtain ⟨s, hs⟩ := pyInt_error h
        subst hs
        rw [String.length_append, String.length_append, hinv, hq]
        omega
  · split at h
    · rcases except_bind_error h with h1 | ⟨seg, h1, h⟩
      · simp [pyGetElem_error h1, hidx]
      · rcases except_bind_error h with h2 | ⟨tok, h2, h⟩
        · simp [pyGetElem_error h2, hidx]
        · obtain ⟨s, hs⟩ := pyInt_error h
          subst hs
          rw [String.length_append, String.length_append, hinv, hq]
          omega
    · cases h

/-- C10: `execute_ping` (line 37) passes no `timeout=` argument to
`subprocess.run`, so a completed probe is the only execute outcome and
`subprocess.TimeoutExpired` can never be raised; consequently the
`except TimeoutExpired` branch of `ping_host` (lines 86-88) is dead and
no `HostResult` of a completed probe carries status `"Error: Timeout"`
(nor does any other exception path, unless its message were literally
`"Timeout"`). -/
theorem no_timeout_status :
    (∀ (host elapsed : String) (rc : Int) (out : String),
      (ping_host host elapsed (.completed rc out)).status ≠ "Error: Timeout") ∧
    (∀ host elapsed msg : String, msg ≠ "Timeout" →
      (ping_host host elapsed (.raised msg)).status ≠ "Error: Timeout") := by
  have l1 : ("Error: " : String).length = 7 := by decide
  have l2 : ("Error: Timeout" : String).length = 14 := by decide
  have l3 : ("Ping failed (code " : String).length = 18 := by decide
  have l4 : (")" : String).length = 1 := by decide
  constructor
  · intro host elapsed rc out
    by_cases hrc : rc ≠ 0
    · simp [ping_host, hrc, error_result]
      intro hc
      have hlen := congrArg String.length hc
      rw [String.length_append, String.length_append, String.length_append,
        l1, l2, l3, l4] at hlen
      omega
    · have h0 : rc = 0 := not_not.mp hrc
      subst h0
      cases hA : analyze_ping out host with
      | error e =>
        simp [ping_host, hA, error_result]
        intro hc
        have hmin := computeReceived_error_len (analyze_ping_error hA)
        have hlen := congrArg String.length hc
        rw [String.length_append, l1, l2] at hlen
        omega
      | ok stats =>
        by_cases hr : stats.received = 0
        · simp [ping_host, hA, hr]
        · simp [ping_host, hA, hr]
  · intro host elapsed msg hmsg
    simp [ping_host, error_result]
    intro hc
    exact hmsg (str_append_left_cancel hc)

/-- Witness for C10's exception-path conjunct at a concrete non-timeout
message. -/
theorem no_timeout_status_witness :
    (ping_host "h" "0.10s" (.raised "No such file or directory")).status ≠ "Error: Timeout" :=
  no_timeout_status.2 "h" "0.10s" "No such file or directory" (by decide)

end PingXlsx
